import Mathlib

set_option maxRecDepth 8000

/-!
Shallow embedding of `github_resolver/resolve_issues.py` (openhands-resolver).

The file models the orchestration core of the resolver script:
the per-item pipeline `process_issue`, the outcome-extraction protocol
`complete_runtime` (diff with retries), the success classifier
`guess_success`, the resumability scan over the existing output file, the
scheduling loop of `resolve_issues`, the command-line entry point, and the
semaphore-bounded worker pool.  External collaborators (the GitHub API, the
sandbox runtime, `json.loads`, the LLM completion call) enter the model as
explicit stub parameters; Python exceptions are modelled by the `Except`
monad with an explicit error type.
-/

/-- Python JSON values as produced by `json.loads`: null, booleans, numbers
(restricted to integers, which is all the script ever stores), strings,
arrays, and objects (ordered key/value lists). -/
inductive Json where
  | null : Json
  | bool (b : Bool) : Json
  | num (n : Int) : Json
  | str (s : String) : Json
  | arr (xs : List Json) : Json
  | obj (kvs : List (String × Json)) : Json

mutual

/-- Python `==` on decoded JSON values (the equality that the set operations
`finished_numbers.add(...)` and `... in finished_numbers` rely on), compared
structurally. -/
def Json.beq (v w : Json) : Bool :=
  match v, w with
  | Json.num x, Json.num y => x == y
  | Json.str x, Json.str y => x == y
  | Json.bool x, Json.bool y => x == y
  | Json.null, Json.null => true
  | Json.arr x, Json.arr y => Json.beqItems x y
  | Json.obj x, Json.obj y => Json.beqPairs x y
  | _, _ => false

/-- Python `==` on decoded JSON arrays: same length, equal items in order. -/
def Json.beqItems (vs ws : List Json) : Bool :=
  match vs, ws with
  | v :: vt, w :: wt => Json.beq v w && Json.beqItems vt wt
  | [], [] => true
  | _, _ => false

/-- Python `==` on decoded JSON objects, which `json.loads` presents with one
value per key, so ordered field comparison decides dict equality here. -/
def Json.beqPairs (vs ws : List (String × Json)) : Bool :=
  match vs, ws with
  | p :: vt, q :: wt => p.fst == q.fst && Json.beq p.snd q.snd && Json.beqPairs vt wt
  | [], [] => true
  | _, _ => false

end

/-- Python exceptions that the script can raise or catch. -/
inductive PyError where
  | jsonDecodeError : PyError
  | keyError (k : String) : PyError
  | typeError : PyError
  | indexError : PyError
  | runtimeError (msg : String) : PyError
  | valueError (msg : String) : PyError
deriving DecidableEq

/-- Python subscript `j[k]` on a decoded JSON value: a `KeyError` when the
object lacks the key, a `TypeError` when the value is not a dict
(lists/strings/numbers are not subscriptable by a string key). -/
def Json.getKey : Json → String → Except PyError Json
  | Json.obj kvs, k =>
    match kvs.find? (fun kv => kv.fst == k) with
    | some kv => Except.ok kv.snd
    | none => Except.error (PyError.keyError k)
  | _, _ => Except.error PyError.typeError

/-- Python `v in s` on a set represented as a duplicate-free list. -/
def pyContains (s : List Json) (v : Json) : Bool :=
  s.any (fun w => Json.beq w v)

/-- Python `s.add(v)` on a set represented as a duplicate-free list. -/
def pySetAdd (s : List Json) (v : Json) : List Json :=
  if pyContains s v then s else s ++ [v]

/-- A work item, following `GithubIssue` (owner, repo, number, title, body). -/
structure GithubIssue where
  owner : String
  repo : String
  number : Int
  title : String
  body : String
deriving DecidableEq

/-- One event of the agent transcript; only its `message` field is ever read
by the classifier. -/
structure Event where
  message : String

/-- The controller state returned by `run_controller`: its `last_error`, the
transcript (`state.history.get_events()`), and optional metrics. -/
structure AgentState where
  lastError : Option String
  historyEvents : List Event
  metrics : Option Json

/-- An observation returned by `runtime.run_action`: a `CmdOutputObservation`
(exit code plus captured output), an `ErrorObservation` (transport error), or
an observation of any other type. -/
inductive Obs where
  | cmdOutput (exitCode : Int) (content : String) : Obs
  | errorObs (content : String) : Obs
  | other : Obs

/-- Python `str.strip()`: drop whitespace from both ends. -/
def pyStrip (s : String) : String :=
  String.mk (((s.data.dropWhile Char.isWhitespace).reverse.dropWhile Char.isWhitespace).reverse)

/-- True when an observation is a `CmdOutputObservation` with exit code 0 —
the success test every setup command of the script applies. -/
def okCmd : Obs → Bool
  | Obs.cmdOutput 0 _ => true
  | _ => false

/-- True when an observation makes a diff attempt fail and retry: a
`CmdOutputObservation` with a non-zero exit code or an `ErrorObservation`. -/
def isFail : Obs → Bool
  | Obs.cmdOutput ec _ => ec != 0
  | Obs.errorObs _ => true
  | Obs.other => false

/-- One externally visible step of the diff-retry loop: issuing the diff
command with its timeout, or sleeping for a backoff. -/
inductive DiffEvent where
  | attempt (cmd : String) (timeout : Nat) : DiffEvent
  | backoff (seconds : Nat) : DiffEvent
deriving DecidableEq

/-- The `while n_retries < 5` loop of `complete_runtime`, lines 162-185.
`n` is `n_retries`, `fuel` is the remaining loop iterations (`5 - n_retries`),
and `obsAt i` is the sandbox's observation for the `i`-th diff attempt.
Attempt `n` runs `git diff --no-color --cached <base_commit>` with timeout
`600 + 100 * n`; exit code 0 yields `some content.strip` and breaks; a
non-zero exit code or an `ErrorObservation` sleeps 10 seconds and retries;
any other observation type raises `ValueError`; running out of iterations
leaves `git_patch = None`. -/
def diffAttempts (bc : String) (obsAt : Nat → Obs) :
    Nat → Nat → List DiffEvent × Except PyError (Option String)
  | _, 0 => ([], Except.ok none)
  | n, fuel + 1 =>
    let ev := DiffEvent.attempt ("git diff --no-color --cached " ++ bc) (600 + 100 * n)
    match obsAt n with
    | Obs.cmdOutput exitCode content =>
      if exitCode = 0 then
        ([ev], Except.ok (some (pyStrip content)))
      else
        let r := diffAttempts bc obsAt (n + 1) fuel
        (ev :: DiffEvent.backoff 10 :: r.1, r.2)
    | Obs.errorObs _ =>
      let r := diffAttempts bc obsAt (n + 1) fuel
      (ev :: DiffEvent.backoff 10 :: r.1, r.2)
    | Obs.other => ([ev], Except.error (PyError.valueError "Unexpected observation type"))

/-- The diff-retry loop as entered by `complete_runtime`: `n_retries = 0`,
at most 5 iterations. -/
def runDiffLoop (bc : String) (obsAt : Nat → Obs) :
    List DiffEvent × Except PyError (Option String) :=
  diffAttempts bc obsAt 0 5

/-- The trace a failed attempt number `j` leaves: the diff command with
timeout `600 + 100 * j`, then a 10-second backoff. -/
def failEvs (bc : String) (j : Nat) : List DiffEvent :=
  [DiffEvent.attempt ("git diff --no-color --cached " ++ bc) (600 + 100 * j),
   DiffEvent.backoff 10]

/-- The sandbox's responses to the commands `complete_runtime` issues:
`cd /workspace`, the two `git config` calls, `git add -A`, and the indexed
diff attempts. -/
structure RuntimeStub where
  cdObs : Obs
  pagerObs : Obs
  safeObs : Obs
  addObs : Obs
  diffObs : Nat → Obs

/-- The function `complete_runtime` (lines 117-190): four setup commands,
each fatal (`RuntimeError`) unless it is a `CmdOutputObservation` with exit
code 0, then the bounded diff-retry loop.  On success it returns the loop's
event trace together with `git_patch` (`None` exactly when all 5 attempts
failed). -/
def complete_runtime (stub : RuntimeStub) (base_commit : String) :
    Except PyError (List DiffEvent × Option String) :=
  if okCmd stub.cdObs = false then
    Except.error (PyError.runtimeError "Failed to change directory to /workspace.")
  else if okCmd stub.pagerObs = false then
    Except.error (PyError.runtimeError "Failed to set git config.")
  else if okCmd stub.safeObs = false then
    Except.error (PyError.runtimeError "Failed to set git config.")
  else if okCmd stub.addObs = false then
    Except.error (PyError.runtimeError "Failed to git add.")
  else
    match runDiffLoop base_commit stub.diffObs with
    | (_, Except.error e) => Except.error e
    | (evs, Except.ok patch) => Except.ok (evs, patch)

/-- The function `get_instruction` (lines 193-207): the fixed instruction
text with the issue body spliced in. -/
def get_instruction (issue : GithubIssue) : String :=
  "Please fix the following issue for the repository in /workspace.\n" ++
  "Environment has been set up for you to start working. You may assume all necessary tools are installed.\n\n" ++
  "# Problem Statement\n" ++
  issue.body ++ "\n\n" ++
  "IMPORTANT: You should ONLY interact with the environment provided to you AND NEVER ASK FOR HUMAN HELP.\n" ++
  "You should NOT modify any existing test case files. If needed, you can add new test cases in a NEW file to reproduce the issue.\n" ++
  "You SHOULD INCLUDE PROPER INDENTATION in your edit commands.\n" ++
  "When you think you have fixed the issue through code changes, please run the following command: <execute_bash> exit </execute_bash>."

/-- The classifier prompt built in `guess_success` (lines 215-223) from the
issue body and the last transcript message. -/
def guessPrompt (issueBody lastMessage : String) : String :=
  "Given the following issue description and the last message from an AI agent attempting to fix it, determine if the issue has been successfully resolved.\n\n" ++
  "Issue description:\n" ++ issueBody ++ "\n\n" ++
  "Last message from AI agent:\n" ++ lastMessage ++ "\n\n" ++
  "Has the issue been successfully resolved? Answer in JSON in the format \x7bsuccess: bool, explanation: str\x7d."

/-- The parsing stage of `guess_success` (lines 232-236).  `decoded` is the
result of `json.loads(answer)` with `none` standing for a raised
`json.JSONDecodeError` — the only exception the `try` block catches, turned
into the degraded verdict.  When decoding succeeds, the subscripts
`json_answer['success']` and `json_answer['explanation']` run unprotected,
so their `KeyError`/`TypeError` propagates. -/
def guessSuccessCore (decoded : Option Json) (answer : String) :
    Except PyError (Json × Json) :=
  match decoded with
  | none =>
    Except.ok (Json.bool false,
      Json.str ("Failed to decode JSON from LLM response: " ++ answer))
  | some j =>
    match j.getKey "success" with
    | Except.error e => Except.error e
    | Except.ok s =>
      match j.getKey "explanation" with
      | Except.error e => Except.error e
      | Except.ok ex => Except.ok (s, ex)

/-- The function `guess_success` (lines 210-236).  It first reads
`history.get_events_as_list()[-1].message` — `IndexError` on an empty
transcript, before the oracle is contacted — then sends the prompt to the
completion oracle (`oracle`, whose failure propagates), strips the response,
and parses it with `loads` standing for `json.loads`. -/
def guess_success (issue : GithubIssue) (history : List Event)
    (oracle : String → Except PyError String) (loads : String → Option Json) :
    Except PyError (Json × Json) :=
  match history.getLast? with
  | none => Except.error PyError.indexError
  | some ev =>
    match oracle (guessPrompt issue.body ev.message) with
    | Except.error e => Except.error e
    | Except.ok content =>
      guessSuccessCore (loads (pyStrip content)) (pyStrip content)

/-- The record `ResolverOutput` built at lines 310-320 and written to the
output file, field for field. -/
structure ResolverOutput where
  issue : GithubIssue
  instruction : String
  base_commit : String
  git_patch : Option String
  history : List Event
  metrics : Option Json
  success : Json
  success_explanation : Json
  error : Option String

/-- The expression `state.last_error if state and state.last_error else None`
(line 319): Python truthiness maps an empty error string to `None`. -/
def pyOptError : Option String → Option String
  | none => none
  | some s => if s = "" then none else some s

/-- The external collaborators of one item's pipeline: `setupErr` is a raised
exception from `shutil.copytree`, `create_runtime` or `initialize_runtime`
(lines 260-281); `stateOpt` is the `run_controller` result (`None` makes the
pipeline raise); `runtime` answers the `complete_runtime` commands; `oracle`
and `loads` serve `guess_success`. -/
structure ItemStub where
  setupErr : Option PyError
  stateOpt : Option AgentState
  runtime : RuntimeStub
  oracle : String → Except PyError String
  loads : String → Option Json

/-- The function `process_issue` (lines 239-321): provisioning and runtime
setup (any failure raises), `run_controller` (a `None` state raises
`RuntimeError`), `complete_runtime` for the patch, `guess_success` for the
verdict, and finally the `ResolverOutput` record.  A raised exception
anywhere surfaces as `Except.error` — nothing in the function catches it. -/
def processIssue (issue : GithubIssue) (baseCommit : String) (stub : ItemStub) :
    Except PyError ResolverOutput :=
  match stub.setupErr with
  | some e => Except.error e
  | none =>
    match stub.stateOpt with
    | none => Except.error (PyError.runtimeError "Failed to run the agent.")
    | some st =>
      match complete_runtime stub.runtime baseCommit with
      | Except.error e => Except.error e
      | Except.ok (_evs, gitPatch) =>
        match guess_success issue st.historyEvents stub.oracle stub.loads with
        | Except.error e => Except.error e
        | Except.ok (succ, expl) =>
          Except.ok
            { issue := issue
              instruction := get_instruction issue
              base_commit := baseCommit
              git_patch := gitPatch
              history := st.historyEvents
              metrics := st.metrics
              success := succ
              success_explanation := expl
              error := pyOptError st.lastError }

/-- The scan loop over the existing output file (lines 451-459), with the
running `finished_numbers` set as accumulator.  Each line is decoded by
`json.loads` (`none` stands for a raised `JSONDecodeError`, which nothing
catches), then `data["number"]` is read (a missing key raises `KeyError`)
and added to the set; no other field of the record is inspected. -/
def loadIdsAux : List (Option Json) → List Json → Except PyError (List Json)
  | [], acc => Except.ok acc
  | none :: _, _ => Except.error PyError.jsonDecodeError
  | some j :: rest, acc =>
    match j.getKey "number" with
    | Except.error e => Except.error e
    | Except.ok v => loadIdsAux rest (pySetAdd acc v)

/-- The completed-id scan starting from the empty `finished_numbers` set. -/
def load_completed_ids (lines : List (Option Json)) : Except PyError (List Json) :=
  loadIdsAux lines []

/-- The `new_issues` filter (lines 468-473): drop every issue whose number is
already in `finished_numbers`, keeping order. -/
def newIssuesOf (issues : List GithubIssue) (finished : List Json) : List GithubIssue :=
  issues.filter (fun issue => !(pyContains finished (Json.num issue.number)))

/-- The inputs of one `resolve_issues` run: the downloaded (and limited)
issue list, the decoded lines of the pre-existing `output.jsonl` (empty list
when the file does not exist), the `base_commit` captured once at lines
439-446 before any task is created, and the per-item collaborators. -/
structure RunInput where
  issues : List GithubIssue
  ledgerLines : List (Option Json)
  baseCommit : String
  stubs : GithubIssue → ItemStub

/-- What a run leaves behind: the records appended to the output file in
completion order, the exception that escaped `resolve_issues` (if any), and
the `new_issues` list the function computed at lines 468-473 (recorded here
for observability; the scheduling loop at line 487 does not read it). -/
structure RunOutcome where
  written : List ResolverOutput
  fatal : Option PyError
  new_issues : List GithubIssue

/-- The task execution of lines 484-510 under `asyncio.Semaphore(num_workers)`
with `num_workers = 1`: the `update_progress(process_issue(...))` tasks run
strictly sequentially in creation order, and each completed task appends its
record to the output file.  `asyncio.gather` is called without
`return_exceptions`, and the surrounding `try` catches only
`KeyboardInterrupt`, so the first exception raised by a pipeline escapes the
run; records written before it persist, later items never run. -/
def runPipelines (bc : String) (stubs : GithubIssue → ItemStub) :
    List GithubIssue → List ResolverOutput × Option PyError
  | [] => ([], none)
  | issue :: rest =>
    match processIssue issue bc (stubs issue) with
    | Except.error e => ([], some e)
    | Except.ok r =>
      let tl := runPipelines bc stubs rest
      (r :: tl.1, tl.2)

/-- The function `resolve_issues` (lines 384-517) from the point where the
issue list, output file and base commit are fixed: scan the existing output
file into `finished_numbers` (a raised exception there is run-fatal), compute
`new_issues` — which the code then never reads — and run one pipeline per
element of `issues` (line 487 iterates `issues`, not `new_issues`). -/
def resolve_issues (inp : RunInput) : RunOutcome :=
  match load_completed_ids inp.ledgerLines with
  | Except.error e => { written := [], fatal := some e, new_issues := [] }
  | Except.ok finished_numbers =>
    let new_issues := newIssuesOf inp.issues finished_numbers
    let run := runPipelines inp.baseCommit inp.stubs inp.issues
    { written := run.1, fatal := run.2, new_issues := new_issues }

/-- The ids present in the output file after a run: the ids of the
pre-existing lines followed by the id of every record the run appended
(`update_progress` writes `resolved_output`, whose issue number is the
record's id). -/
def ledgerIdsAfter (inp : RunInput) : List Json :=
  (inp.ledgerLines.filterMap (fun l =>
    match l with
    | some j => (j.getKey "number").toOption
    | none => none))
  ++ ((resolve_issues inp).written.map (fun r => Json.num r.issue.number))

/-- The parsed command-line arguments of the `__main__` block (lines 522-595),
with `Option` fields for arguments whose default is `None`. -/
structure CliArgs where
  repo : String
  token : Option String
  username : Option String
  runtimeContainerImage : String
  maxIterations : Nat
  limitIssues : Option Nat
  numWorkers : Nat
  outputDir : String
  llmModel : Option String
  llmApiKey : Option String

/-- Python truthiness of an optional string: `None` and the empty string are
falsy. -/
def pyTruthy : Option String → Bool
  | none => false
  | some s => !(s == "")

/-- Helper of `pySplit`: walk the characters, cutting at the separator;
`cur` holds the current chunk reversed. -/
def pySplitAux (sep : Char) : List Char → List Char → List String
  | [], cur => [String.mk cur.reverse]
  | c :: rest, cur =>
    if c = sep then String.mk cur.reverse :: pySplitAux sep rest []
    else pySplitAux sep rest (c :: cur)

/-- Python `s.split(sep)` for a one-character separator, as used by
`my_args.repo.split("/")`. -/
def pySplit (sep : Char) (s : String) : List String :=
  pySplitAux sep s.data []

/-- The argument package handed to `asyncio.run(resolve_issues(...))` at
lines 620-632; producing this value is the point where scheduling begins. -/
structure ResolveInvocation where
  owner : String
  repo : String
  token : String
  username : Option String
  runtimeContainerImage : String
  maxIterations : Nat
  limitIssues : Option Nat
  numWorkers : Nat
  outputDir : String
  llmModel : String
  llmApiKey : String

/-- The `__main__` block from line 597 on: unpack `owner, repo` from the
`--repo` argument (a `ValueError` when it does not split in exactly two),
resolve the token and username from argument or environment, raise
`ValueError` when the token is missing, raise `ValueError` when the output
directory already exists, build the LLM config (`os.environ[...]` raises
`KeyError` when neither argument nor environment provides a value), and only
then hand over to `resolve_issues`.  `Except.error` therefore means the
process dies before any pipeline is scheduled or any record written. -/
def mainEntry (args : CliArgs) (envToken envUsername envModel envApiKey : Option String)
    (outputDirExists : Bool) : Except PyError ResolveInvocation :=
  match pySplit '/' args.repo with
  | [owner, repo] =>
    let token := if pyTruthy args.token then args.token else envToken
    let username := if pyTruthy args.username then args.username else envUsername
    if pyTruthy token = false then
      Except.error (PyError.valueError "Github token is required.")
    else if outputDirExists then
      Except.error (PyError.valueError
        ("Output directory " ++ args.outputDir ++ " already exists, remove it or specify a different one."))
    else
      match (if pyTruthy args.llmModel then args.llmModel else envModel) with
      | none => Except.error (PyError.keyError "LLM_MODEL")
      | some model =>
        match (if pyTruthy args.llmApiKey then args.llmApiKey else envApiKey) with
        | none => Except.error (PyError.keyError "LLM_API_KEY")
        | some apiKey =>
          Except.ok
            { owner := owner
              repo := repo
              token := token.getD ""
              username := username
              runtimeContainerImage := args.runtimeContainerImage
              maxIterations := args.maxIterations
              limitIssues := args.limitIssues
              numWorkers := args.numWorkers
              outputDir := args.outputDir
              llmModel := model
              llmApiKey := apiKey }
  | _ => Except.error (PyError.valueError "not enough values to unpack")

/-- A snapshot of the worker pool of lines 503-510: tasks that have not yet
acquired the semaphore, tasks inside the `async with sem` block (an in-flight
pipeline holding a provision/sandbox slot), tasks that finished and released
the slot, and the semaphore's available permits. -/
structure PoolState where
  pending : Nat
  inFlight : Nat
  completed : Nat
  sem : Nat

/-- The two scheduler transitions `asyncio.Semaphore` allows the pool of
`run_with_semaphore` tasks: a pending task acquires a free permit and its
pipeline becomes in-flight, or an in-flight pipeline finishes and releases
its permit.  A pending task cannot begin pipeline work without a permit —
`await task` sits inside the `async with sem` block. -/
inductive PoolStep : PoolState → PoolState → Prop
  | acquire (p i c s : Nat) :
      PoolStep ⟨p + 1, i, c, s + 1⟩ ⟨p, i + 1, c, s⟩
  | release (p i c s : Nat) :
      PoolStep ⟨p, i + 1, c, s⟩ ⟨p, i, c + 1, s + 1⟩

/-- The pool at the moment `asyncio.gather` starts: `n` created tasks, none
in flight, and `asyncio.Semaphore(num_workers)` holding `k` permits. -/
def initPool (n k : Nat) : PoolState := ⟨n, 0, 0, k⟩

/-- A sandbox stub whose every command succeeds and whose diff attempts all
return a fixed non-empty diff. -/
def okRuntimeStub : RuntimeStub :=
  { cdObs := Obs.cmdOutput 0 ""
    pagerObs := Obs.cmdOutput 0 ""
    safeObs := Obs.cmdOutput 0 ""
    addObs := Obs.cmdOutput 0 ""
    diffObs := fun _ => Obs.cmdOutput 0 "diff --git a b" }

/-- An oracle stub that always answers with a fixed text. -/
def okOracle : String → Except PyError String := fun _ => Except.ok "RAW"

/-- A `json.loads` stub decoding every answer to
`{"success": true, "explanation": "ok"}`. -/
def okLoads : String → Option Json :=
  fun _ => some (Json.obj [("success", Json.bool true), ("explanation", Json.str "ok")])

/-- An item whose whole pipeline succeeds. -/
def okStub : ItemStub :=
  { setupErr := none
    stateOpt := some { lastError := none, historyEvents := [{ message := "done" }], metrics := none }
    runtime := okRuntimeStub
    oracle := okOracle
    loads := okLoads }

/-- An item whose provisioning raises (`shutil.copytree` / `create_runtime`
failure). -/
def failStub : ItemStub :=
  { okStub with setupErr := some (PyError.runtimeError "provision failed") }

/-- A work item with the given number and fixed text fields. -/
def mkIssue (n : Int) : GithubIssue :=
  { owner := "o", repo := "r", number := n, title := "t", body := "b" }

/-- A resumed run: 3 issues, an output file already holding records for
issues 1 and 2, every pipeline succeeding. -/
def demoRunC1 : RunInput :=
  { issues := [mkIssue 1, mkIssue 2, mkIssue 3]
    ledgerLines := [some (Json.obj [("number", Json.num 1), ("title", Json.str "t")]),
                    some (Json.obj [("number", Json.num 2)])]
    baseCommit := "abc123"
    stubs := fun _ => okStub }

/-- A fresh run of two issues where issue 1's provisioning raises and issue
2's pipeline would succeed. -/
def demoRunC2 : RunInput :=
  { issues := [mkIssue 1, mkIssue 2]
    ledgerLines := []
    baseCommit := "abc123"
    stubs := fun issue => if issue.number = 1 then failStub else okStub }

/-- A sandbox-response schedule whose first two diff attempts fail with exit
code 1 and whose third succeeds. -/
def obsWitness : Nat → Obs :=
  fun i => if i < 2 then Obs.cmdOutput 1 "x" else Obs.cmdOutput 0 " patch "

/-- A sandbox stub that succeeds at once with an empty diff output. -/
def emptyDiffStub : RuntimeStub :=
  { okRuntimeStub with diffObs := fun _ => Obs.cmdOutput 0 " \n" }

/-- A valid output-file line with a `number` field and a title. -/
def lineA : Option Json :=
  some (Json.obj [("number", Json.num 3), ("title", Json.str "x")])

/-- A line agreeing with `lineA` on the `number` field but with an entirely
different, schema-drifted body. -/
def lineB : Option Json :=
  some (Json.obj [("number", Json.num 3), ("garbage", Json.null)])

/-- Command-line arguments with no token or model configured anywhere. -/
def demoArgs : CliArgs :=
  { repo := "own/rep"
    token := none
    username := none
    runtimeContainerImage := "img"
    maxIterations := 30
    limitIssues := none
    numWorkers := 1
    outputDir := "output"
    llmModel := none
    llmApiKey := none }

/-- When every attempt from `n` on fails, the loop performs exactly its
remaining `fuel` attempts, each followed by the 10-second backoff, and leaves
`git_patch = None` without raising. -/
theorem diffAttempts_all_fail (bc : String) (obsAt : Nat → Obs) :
    ∀ fuel n, (∀ i, n ≤ i → i < n + fuel → isFail (obsAt i) = true) →
      diffAttempts bc obsAt n fuel =
        ((List.range' n fuel).flatMap (failEvs bc), Except.ok none) := by
  intro fuel
  induction fuel with
  | zero => intro n _; simp [diffAttempts]
  | succ fuel ih =>
    intro n h
    have hn : isFail (obsAt n) = true := h n le_rfl (by omega)
    have hrest := ih (n + 1) (fun i h1 h2 => h i (by omega) (by omega))
    cases hobs : obsAt n with
    | cmdOutput ec content =>
      rw [hobs] at hn
      have hec : ¬(ec = 0) := by simpa [isFail] using hn
      simp [diffAttempts, hobs, hec, hrest, List.range'_succ, failEvs]
    | errorObs c =>
      simp [diffAttempts, hobs, hrest, List.range'_succ, failEvs]
    | other => rw [hobs] at hn; simp [isFail] at hn

/-- When attempts `n .. m-1` fail and attempt `m` exits with code 0, the loop
performs the failed attempts with their backoffs, then attempt `m`, and stops
at once with the stripped diff as the patch. -/
theorem diffAttempts_first_success (bc : String) (obsAt : Nat → Obs) :
    ∀ fuel n m content, n ≤ m → m < n + fuel →
      (∀ i, n ≤ i → i < m → isFail (obsAt i) = true) →
      obsAt m = Obs.cmdOutput 0 content →
      diffAttempts bc obsAt n fuel =
        ((List.range' n (m - n)).flatMap (failEvs bc) ++
          [DiffEvent.attempt ("git diff --no-color --cached " ++ bc) (600 + 100 * m)],
         Except.ok (some (pyStrip content))) := by
  intro fuel
  induction fuel with
  | zero => intro n m content h1 h2 _ _; omega
  | succ fuel ih =>
    intro n m content hnm hm hfail hobs
    rcases Nat.eq_or_lt_of_le hnm with heq | hlt
    · subst heq
      simp [diffAttempts, hobs, Nat.sub_self]
    · have hn : isFail (obsAt n) = true := hfail n le_rfl hlt
      have hrest := ih (n + 1) m content (by omega) (by omega)
        (fun i hi him => hfail i (by omega) him) hobs
      have hmn : m - n = (m - (n + 1)) + 1 := by omega
      cases hobsn : obsAt n with
      | cmdOutput ec c =>
        rw [hobsn] at hn
        have hec : ¬(ec = 0) := by simpa [isFail] using hn
        rw [hmn]
        simp [diffAttempts, hobsn, hec, hrest, List.range'_succ, failEvs]
      | errorObs c =>
        rw [hmn]
        simp [diffAttempts, hobsn, hrest, List.range'_succ, failEvs]
      | other => rw [hobsn] at hn; simp [isFail] at hn

/-- Every attempt event the loop emits carries the single diff command built
from the base commit it was given. -/
theorem diffAttempts_attempt_cmd (bc : String) (obsAt : Nat → Obs) :
    ∀ fuel n c t, DiffEvent.attempt c t ∈ (diffAttempts bc obsAt n fuel).1 →
      c = "git diff --no-color --cached " ++ bc := by
  intro fuel
  induction fuel with
  | zero => intro n c t h; simp [diffAttempts] at h
  | succ fuel ih =>
    intro n c t h
    cases hobs : obsAt n with
    | cmdOutput ec content =>
      by_cases hec : ec = 0
      · subst hec
        simp [diffAttempts, hobs] at h
        exact h.1
      · simp [diffAttempts, hobs, hec] at h
        rcases h with ⟨hc, _⟩ | h
        · exact hc
        · exact ih _ _ _ h
    | errorObs c' =>
      simp [diffAttempts, hobs] at h
      rcases h with ⟨hc, _⟩ | h
      · exact hc
      · exact ih _ _ _ h
    | other =>
      simp [diffAttempts, hobs] at h
      exact h.1

/-- A pipeline that completes writes the base commit it was given into its
record's `base_commit` field. -/
theorem processIssue_base_commit (issue : GithubIssue) (bc : String)
    (stub : ItemStub) (r : ResolverOutput)
    (h : processIssue issue bc stub = Except.ok r) : r.base_commit = bc := by
  unfold processIssue at h
  split at h
  · cases h
  · split at h
    · cases h
    · split at h
      · cases h
      · split at h
        · cases h
        · cases h
          rfl

/-- Every record a run writes carries the run's base commit. -/
theorem runPipelines_base_commit (bc : String) (stubs : GithubIssue → ItemStub) :
    ∀ issues r, r ∈ (runPipelines bc stubs issues).1 → r.base_commit = bc := by
  intro issues
  induction issues with
  | nil => intro r h; simp [runPipelines] at h
  | cons issue rest ih =>
    intro r h
    cases hp : processIssue issue bc (stubs issue) with
    | error e => simp [runPipelines, hp] at h
    | ok r0 =>
      simp [runPipelines, hp] at h
      rcases h with rfl | h
      · exact processIssue_base_commit _ _ _ _ hp
      · exact ih r h

/-- Sequential task execution around the first raising pipeline: the items
before it each append their record, the raising item's exception escapes the
run, and the items after it never start. -/
theorem runPipelines_split (bc : String) (stubs : GithubIssue → ItemStub) :
    ∀ (pre : List GithubIssue) (bad : GithubIssue) (post : List GithubIssue) (e : PyError),
      (∀ i ∈ pre, ∃ r, processIssue i bc (stubs i) = Except.ok r) →
      processIssue bad bc (stubs bad) = Except.error e →
      (runPipelines bc stubs (pre ++ bad :: post)).2 = some e ∧
      (runPipelines bc stubs (pre ++ bad :: post)).1.length = pre.length := by
  intro pre
  induction pre with
  | nil => intro bad post e _ hbad; simp [runPipelines, hbad]
  | cons i pre ih =>
    intro bad post e hpre hbad
    obtain ⟨r, hr⟩ := hpre i (by simp)
    have hrec := ih bad post e (fun j hj => hpre j (by simp [hj])) hbad
    simp [runPipelines, hr, hrec.1, hrec.2]

/-- The completed-id scan succeeds whenever every line decodes and carries a
`number` field, whatever else the records hold. -/
theorem loadIdsAux_ok :
    ∀ (lines : List (Option Json)) (acc : List Json),
      (∀ l ∈ lines, ∃ j v, l = some j ∧ Json.getKey j "number" = Except.ok v) →
      ∃ s, loadIdsAux lines acc = Except.ok s := by
  intro lines
  induction lines with
  | nil => intro acc _; exact ⟨acc, rfl⟩
  | cons l rest ih =>
    intro acc h
    obtain ⟨j, v, hl, hkey⟩ := h l (by simp)
    subst hl
    simpa [loadIdsAux, hkey] using
      ih (pySetAdd acc v) (fun x hx => h x (by simp [hx]))

/-- The completed-id scan reads nothing but the `number` field: two line
lists whose decoded records agree on that field run to the same result, no
matter how the rest of the record bodies differ. -/
theorem loadIdsAux_congr :
    ∀ (lines₁ lines₂ : List (Option Json)),
      List.Forall₂ (fun l₁ l₂ => ∃ j₁ j₂, l₁ = some j₁ ∧ l₂ = some j₂ ∧
        Json.getKey j₁ "number" = Json.getKey j₂ "number") lines₁ lines₂ →
      ∀ acc, loadIdsAux lines₂ acc = loadIdsAux lines₁ acc := by
  intro lines₁ lines₂ h
  induction h with
  | nil => intro acc; rfl
  | cons hrel hrest ih =>
    intro acc
    obtain ⟨j₁, j₂, hl₁, hl₂, hkey⟩ := hrel
    subst hl₁
    subst hl₂
    simp only [loadIdsAux, ← hkey]
    cases hk : Json.getKey j₁ "number" with
    | error e => rfl
    | ok v => exact ih (pySetAdd acc v)

/-- The semaphore invariant of the worker pool: along any execution the
in-flight pipelines and the free permits always sum to the configured worker
count. -/
theorem pool_invariant (n k : Nat) :
    ∀ s, Relation.ReflTransGen PoolStep (initPool n k) s → s.inFlight + s.sem = k := by
  intro s h
  induction h with
  | refl => simp [initPool]
  | tail hab hstep ih =>
    cases hstep with
    | acquire p i c s' => simp_all; omega
    | release p i c s' => simp_all; omega

/-- A pipeline that completes normally copies the controller state's
`last_error` (under Python truthiness) into its record's `error` field. -/
theorem processIssue_error_field (issue : GithubIssue) (bc : String) (stub : ItemStub)
    (st : AgentState) (r : ResolverOutput)
    (hst : stub.stateOpt = some st)
    (h : processIssue issue bc stub = Except.ok r) :
    r.error = pyOptError st.lastError := by
  unfold processIssue at h
  split at h
  · cases h
  · split at h
    · cases h
    · rename_i st' heq
      rw [hst] at heq
      injection heq with heq'
      subst heq'
      split at h
      · cases h
      · split at h
        · cases h
        · cases h
          rfl

/-- The event list a successful `complete_runtime` returns is exactly the
trace of its diff-retry loop. -/
theorem complete_runtime_evs (stub : RuntimeStub) (bc : String)
    (evs : List DiffEvent) (p : Option String)
    (h : complete_runtime stub bc = Except.ok (evs, p)) :
    evs = (runDiffLoop bc stub.diffObs).1 := by
  unfold complete_runtime at h
  split at h
  · cases h
  · split at h
    · cases h
    · split at h
      · cases h
      · split at h
        · cases h
        · split at h
          · cases h
          · rename_i evs' patch heq
            rw [heq]
            cases h
            rfl

/-- C1: the claim demands that a run against an output store already holding
records schedules exactly `len(items) - len(already_completed)` pipelines and
appends no id twice.  Evaluating the code at 3 issues with 2 already in the
store: the scan correctly finds ids 1 and 2, `new_issues` correctly holds
only issue 3 — but the scheduling loop at line 487 iterates `issues`, not
`new_issues`, so 3 pipelines run (the claim demands 1) and id 1 appears twice
in the output file afterwards. -/
theorem resume_filter_unused_eval :
    load_completed_ids demoRunC1.ledgerLines = Except.ok [Json.num 1, Json.num 2] ∧
    (resolve_issues demoRunC1).new_issues = [mkIssue 3] ∧
    (resolve_issues demoRunC1).written.length = 3 ∧
    (ledgerIdsAfter demoRunC1).countP (fun v => Json.beq v (Json.num 1)) = 2 :=
  ⟨rfl, by decide, by decide, by decide⟩

/-- C2 counterexample: a run of two issues where the first pipeline raises a
provisioning error and the second would succeed.  The claim says the run and
the sibling continue and the failing item still gets a record; in fact the
exception escapes `asyncio.gather`, the run terminates with it, and no record
at all is written. -/
theorem pipeline_error_kills_run_cex :
    (resolve_issues demoRunC2).fatal = some (PyError.runtimeError "provision failed") ∧
    (resolve_issues demoRunC2).written.length = 0 :=
  ⟨by decide, by decide⟩

/-- C2 amended: an unrecoverable error raised inside an item's pipeline
terminates the run with that exception; the items scheduled before it keep
their appended records and the items after it never run.  An item's error is
captured into its record's `error` field only when the pipeline completes
without raising, from the controller state's `last_error`. -/
theorem pipeline_error_aborts_run (bc : String) (stubs : GithubIssue → ItemStub)
    (pre : List GithubIssue) (bad : GithubIssue) (post : List GithubIssue) (e : PyError)
    (hpre : ∀ i ∈ pre, ∃ r, processIssue i bc (stubs i) = Except.ok r)
    (hbad : processIssue bad bc (stubs bad) = Except.error e) :
    (runPipelines bc stubs (pre ++ bad :: post)).2 = some e ∧
    (runPipelines bc stubs (pre ++ bad :: post)).1.length = pre.length ∧
    (∀ issue st r, (stubs issue).stateOpt = some st →
      processIssue issue bc (stubs issue) = Except.ok r →
      r.error = pyOptError st.lastError) := by
  obtain ⟨h1, h2⟩ := runPipelines_split bc stubs pre bad post e hpre hbad
  exact ⟨h1, h2, fun issue st r hst hr =>
    processIssue_error_field issue bc (stubs issue) st r hst hr⟩

/-- C2 witness: with the pipeline of issue 1 raising and issue 2 scheduled
first, the run aborts with issue 1's exception after writing exactly the one
record of issue 2. -/
theorem pipeline_error_aborts_run_witness :
    (runPipelines demoRunC2.baseCommit demoRunC2.stubs
        ([mkIssue 2] ++ mkIssue 1 :: [])).2 =
      some (PyError.runtimeError "provision failed") ∧
    (runPipelines demoRunC2.baseCommit demoRunC2.stubs
        ([mkIssue 2] ++ mkIssue 1 :: [])).1.length = [mkIssue 2].length := by
  have h := pipeline_error_aborts_run demoRunC2.baseCommit demoRunC2.stubs
    [mkIssue 2] (mkIssue 1) [] (PyError.runtimeError "provision failed")
    (by intro i hi; simp at hi; subst hi; exact ⟨_, rfl⟩) rfl
  exact ⟨h.1, h.2.1⟩

/-- C3: the diff step of the outcome extractor makes at most 5 attempts;
attempt `n` (counting from 0) issues the diff command with timeout
`600 + 100 * n`; every failed attempt (non-zero exit code or transport-error
observation) is followed by a fixed 10-second backoff; a zero exit code on
any attempt yields the stripped patch and stops the loop at once; and
exhausting all 5 attempts leaves a null patch without raising. -/
theorem diff_retry_protocol (bc : String) (obsAt : Nat → Obs) :
    ((∀ i, i < 5 → isFail (obsAt i) = true) →
      runDiffLoop bc obsAt = ((List.range 5).flatMap (failEvs bc), Except.ok none)) ∧
    (∀ m content, m < 5 → (∀ i, i < m → isFail (obsAt i) = true) →
      obsAt m = Obs.cmdOutput 0 content →
      runDiffLoop bc obsAt =
        ((List.range m).flatMap (failEvs bc) ++
          [DiffEvent.attempt ("git diff --no-color --cached " ++ bc) (600 + 100 * m)],
         Except.ok (some (pyStrip content)))) := by
  constructor
  · intro h
    rw [List.range_eq_range']
    exact diffAttempts_all_fail bc obsAt 5 0 (fun i _ h2 => h i (by omega))
  · intro m content hm hfail hobs
    rw [List.range_eq_range']
    have h := diffAttempts_first_success bc obsAt 5 0 m content (by omega) (by omega)
      (fun i _ h2 => hfail i h2) hobs
    simpa using h

/-- C3 witness: two failing attempts then a success on attempt 2 produce the
two attempt/backoff pairs with timeouts 600 and 700, the successful attempt
with timeout 800, and the stripped patch. -/
theorem diff_retry_protocol_witness :
    runDiffLoop "abc" obsWitness =
      ((List.range 2).flatMap (failEvs "abc") ++
        [DiffEvent.attempt ("git diff --no-color --cached " ++ "abc") (600 + 100 * 2)],
       Except.ok (some (pyStrip " patch "))) :=
  (diff_retry_protocol "abc" obsWitness).2 2 " patch " (by decide) (by decide) rfl

/-- C4 counterexample: the claim says the classifier never throws on a
response that does not parse into the expected structure.  The oracle answer
given here is the text of an empty JSON object — `json.loads` succeeds (the
decoded value is an object with no keys), so the `except json.JSONDecodeError`
arm is not taken, and the unprotected subscript `json_answer['success']`
raises `KeyError`, which propagates out of `guess_success`. -/
theorem guess_success_throws_cex :
    guess_success (mkIssue 7) [{ message := "done" }]
        (fun _ => Except.ok "\x7b\x7d") (fun _ => some (Json.obj [])) =
      Except.error (PyError.keyError "success") := rfl

/-- C4 amended: only a response that is not valid JSON at all degrades to the
non-thrown verdict `(False, "Failed to decode JSON from LLM response: " +
raw)`; a response that is valid JSON but lacks the `success` key makes
`guess_success` raise an uncaught `KeyError`. -/
theorem guess_success_degrade_amended (issue : GithubIssue) (history : List Event)
    (ev : Event) (oracle : String → Except PyError String)
    (loads : String → Option Json) (raw : String)
    (hlast : history.getLast? = some ev)
    (horacle : oracle (guessPrompt issue.body ev.message) = Except.ok raw) :
    (loads (pyStrip raw) = none →
      guess_success issue history oracle loads =
        Except.ok (Json.bool false,
          Json.str ("Failed to decode JSON from LLM response: " ++ pyStrip raw))) ∧
    (∀ kvs, loads (pyStrip raw) = some (Json.obj kvs) →
      kvs.find? (fun kv => kv.fst == "success") = none →
      guess_success issue history oracle loads =
        Except.error (PyError.keyError "success")) := by
  constructor
  · intro hl
    simp [guess_success, hlast, horacle, guessSuccessCore, hl]
  · intro kvs hl hfind
    simp [guess_success, hlast, horacle, guessSuccessCore, hl, Json.getKey, hfind]

/-- C4 witness: a non-JSON oracle answer yields the degraded false verdict
with the raw text embedded in the explanation. -/
theorem guess_success_degrade_witness :
    guess_success (mkIssue 8) [{ message := "m" }]
        (fun _ => Except.ok "not json") (fun _ => none) =
      Except.ok (Json.bool false,
        Json.str ("Failed to decode JSON from LLM response: " ++ pyStrip "not json")) :=
  (guess_success_degrade_amended (mkIssue 8) [{ message := "m" }] { message := "m" }
    (fun _ => Except.ok "not json") (fun _ => none) "not json" rfl rfl).1 rfl

/-- C5 counterexample: the claim says a record whose body is corrupt after a
valid id still contributes its id and does not make the scan fail.  The scan
decodes each whole line with `json.loads` and catches nothing: with one valid
record and one corrupt line (modelled by `none`, a line `json.loads` rejects
even though it begins with a valid id field), the scan raises
`JSONDecodeError` and produces no skip-set at all. -/
theorem skip_scan_corrupt_cex :
    load_completed_ids [some (Json.obj [("number", Json.num 1)]), none] =
      Except.error PyError.jsonDecodeError := rfl

/-- C5 amended: the scan succeeds and tolerates arbitrary record bodies as
long as every line is valid JSON bearing a `number` field: it reads nothing
but that field, so line lists agreeing on it scan identically; but a line
that is not valid JSON makes the scan raise. -/
theorem skip_scan_id_only (lines : List (Option Json))
    (h : ∀ l ∈ lines, ∃ j v, l = some j ∧ Json.getKey j "number" = Except.ok v) :
    (∃ s, load_completed_ids lines = Except.ok s) ∧
    (∀ lines₂ : List (Option Json),
      List.Forall₂ (fun l₁ l₂ => ∃ j₁ j₂, l₁ = some j₁ ∧ l₂ = some j₂ ∧
        Json.getKey j₁ "number" = Json.getKey j₂ "number") lines lines₂ →
      load_completed_ids lines₂ = load_completed_ids lines) :=
  ⟨loadIdsAux_ok lines [] h,
   fun lines₂ h₂ => loadIdsAux_congr lines lines₂ h₂ []⟩

/-- C5 witness: a line with a title body and a line with a schema-drifted
body but the same `number` field scan to the same successful result. -/
theorem skip_scan_id_only_witness :
    (∃ s, load_completed_ids [lineA] = Except.ok s) ∧
    load_completed_ids [lineB] = load_completed_ids [lineA] := by
  have h := skip_scan_id_only [lineA]
    (by intro l hl; simp at hl; subst hl; exact ⟨_, _, rfl, rfl⟩)
  exact ⟨h.1, h.2 [lineB] (List.Forall₂.cons ⟨_, _, rfl, rfl, rfl⟩ List.Forall₂.nil)⟩

/-- C6: a diff attempt that exits with code 0 and empty (or all-whitespace)
output makes the extractor return the empty-string patch `some ""`, which is
distinct from the null patch `none` of an extraction that never converged. -/
theorem empty_diff_is_empty_patch (stub : RuntimeStub) (bc : String)
    (m : Nat) (content : String)
    (hcd : okCmd stub.cdObs = true) (hpager : okCmd stub.pagerObs = true)
    (hsafe : okCmd stub.safeObs = true) (hadd : okCmd stub.addObs = true)
    (hm : m < 5) (hfail : ∀ i, i < m → isFail (stub.diffObs i) = true)
    (hobs : stub.diffObs m = Obs.cmdOutput 0 content)
    (hempty : pyStrip content = "") :
    (∃ evs, complete_runtime stub bc = Except.ok (evs, some "")) ∧
    some "" ≠ (none : Option String) := by
  have hdiff := diffAttempts_first_success bc stub.diffObs 5 0 m content
    (by omega) (by omega) (fun i _ h2 => hfail i h2) hobs
  refine ⟨⟨(List.range' 0 (m - 0)).flatMap (failEvs bc) ++
    [DiffEvent.attempt ("git diff --no-color --cached " ++ bc) (600 + 100 * m)], ?_⟩,
    by simp⟩
  simp [complete_runtime, hcd, hpager, hsafe, hadd, runDiffLoop, hdiff, hempty]

/-- C6 witness: a sandbox whose first diff attempt returns exit code 0 with
whitespace-only output yields the empty patch, not the null patch. -/
theorem empty_diff_is_empty_patch_witness :
    (∃ evs, complete_runtime emptyDiffStub "abc" = Except.ok (evs, some "")) ∧
    some "" ≠ (none : Option String) :=
  empty_diff_is_empty_patch emptyDiffStub "abc" 0 " \n" rfl rfl rfl rfl
    (by decide) (fun i hi => absurd hi (Nat.not_lt_zero i)) rfl (by decide)

/-- C7: for `concurrency = k` with `k ≥ 1` and at least `k` created tasks, at
no reachable instant of the semaphore-governed pool do more than `k`
pipelines hold an in-flight slot: a task only begins its pipeline inside
`async with sem`, so eagerly created task objects never become unbounded
background work. -/
theorem bounded_concurrency (n k : Nat) (hk : 1 ≤ k) (hn : k ≤ n)
    (s : PoolState)
    (hreach : Relation.ReflTransGen PoolStep (initPool n k) s) :
    s.inFlight ≤ k := by
  have h := pool_invariant n k s hreach
  omega

/-- C7 witness: with two tasks and one permit, the state after one acquire
has one in-flight pipeline, within the bound. -/
theorem bounded_concurrency_witness :
    (PoolState.mk 1 1 0 0).inFlight ≤ 1 :=
  bounded_concurrency 2 1 (by decide) (by decide) ⟨1, 1, 0, 0⟩
    (Relation.ReflTransGen.single (PoolStep.acquire 1 0 0 0))

/-- C8: a run carries a single base commit, captured before any task is
created: every record a run writes holds that same `base_commit` value, and
every diff command any item's extraction issues is
`git diff --no-color --cached <base_commit>` for that same value. -/
theorem base_commit_uniform (inp : RunInput) :
    (∀ r, r ∈ (resolve_issues inp).written → r.base_commit = inp.baseCommit) ∧
    (∀ issue evs p,
      complete_runtime (inp.stubs issue).runtime inp.baseCommit = Except.ok (evs, p) →
      ∀ c t, DiffEvent.attempt c t ∈ evs →
        c = "git diff --no-color --cached " ++ inp.baseCommit) := by
  constructor
  · intro r h
    unfold resolve_issues at h
    split at h
    · simp at h
    · exact runPipelines_base_commit inp.baseCommit inp.stubs inp.issues r h
  · intro issue evs p hcr c t hev
    rw [complete_runtime_evs _ _ _ _ hcr] at hev
    exact diffAttempts_attempt_cmd inp.baseCommit (inp.stubs issue).runtime.diffObs 5 0 c t hev

/-- C8 witness: in the resumed demo run, the one diff command of issue 1's
extraction is built from the run's single base commit. -/
theorem base_commit_uniform_witness :
    "git diff --no-color --cached abc123" =
      "git diff --no-color --cached " ++ demoRunC1.baseCommit :=
  (base_commit_uniform demoRunC1).2 (mkIssue 1)
    [DiffEvent.attempt "git diff --no-color --cached abc123" 600]
    (some "diff --git a b") rfl "git diff --no-color --cached abc123" 600 (by simp)

/-- C9: with a well-formed repository argument, the command surface raises
`ValueError("Github token is required.")` before doing anything else when no
token is configured; with a token present it raises the pre-existing output
directory error; and whenever the output directory exists, it never reaches
the point of invoking `resolve_issues` — no pipeline is scheduled and no
record written. -/
theorem cli_preconditions (args : CliArgs)
    (envToken envUsername envModel envApiKey : Option String)
    (dirExists : Bool) (o r : String)
    (hrepo : pySplit '/' args.repo = [o, r]) :
    (pyTruthy (if pyTruthy args.token then args.token else envToken) = false →
      mainEntry args envToken envUsername envModel envApiKey dirExists =
        Except.error (PyError.valueError "Github token is required.")) ∧
    (pyTruthy (if pyTruthy args.token then args.token else envToken) = true →
      dirExists = true →
      mainEntry args envToken envUsername envModel envApiKey dirExists =
        Except.error (PyError.valueError
          ("Output directory " ++ args.outputDir ++
            " already exists, remove it or specify a different one."))) ∧
    (dirExists = true →
      ∀ inv, mainEntry args envToken envUsername envModel envApiKey dirExists ≠
        Except.ok inv) := by
  refine ⟨?_, ?_, ?_⟩
  · intro htok
    simp [mainEntry, hrepo, htok]
  · intro htok hdir
    subst hdir
    simp [mainEntry, hrepo, htok]
  · intro hdir inv h
    subst hdir
    cases htok : pyTruthy (if pyTruthy args.token then args.token else envToken) with
    | false => simp [mainEntry, hrepo, htok] at h
    | true => simp [mainEntry, hrepo, htok] at h

/-- C9 witness: with no token configured anywhere the entry point raises the
token error, and with a token but a pre-existing output directory it raises
the overwrite-refusal error. -/
theorem cli_preconditions_witness :
    mainEntry demoArgs none none none none false =
      Except.error (PyError.valueError "Github token is required.") ∧
    mainEntry { demoArgs with token := some "tok" } none none none none true =
      Except.error (PyError.valueError
        ("Output directory " ++ demoArgs.outputDir ++
          " already exists, remove it or specify a different one.")) :=
  ⟨(cli_preconditions demoArgs none none none none false "own" "rep" rfl).1 rfl,
   (cli_preconditions { demoArgs with token := some "tok" } none none none none true
      "own" "rep" rfl).2.1 rfl rfl⟩

/-- C10: the classifier reads only the final transcript event — on an empty
transcript `guess_success` raises `IndexError` whatever the oracle would
answer (so before contacting it), and two transcripts with the same last
event classify identically, whatever their earlier events. -/
theorem classifier_reads_last_event_only :
    (∀ (issue : GithubIssue) (oracle : String → Except PyError String)
        (loads : String → Option Json),
      guess_success issue [] oracle loads = Except.error PyError.indexError) ∧
    (∀ (issue : GithubIssue) (h₁ h₂ : List Event)
        (oracle : String → Except PyError String) (loads : String → Option Json),
      h₁.getLast? = h₂.getLast? →
      guess_success issue h₁ oracle loads = guess_success issue h₂ oracle loads) := by
  constructor
  · intro issue oracle loads
    rfl
  · intro issue h₁ h₂ oracle loads hlast
    unfold guess_success
    rw [hlast]

/-- C10 witness: the empty transcript raises `IndexError`, and a two-event
transcript classifies exactly as the one-event transcript with the same last
event. -/
theorem classifier_reads_last_event_only_witness :
    guess_success (mkIssue 9) [] okOracle okLoads = Except.error PyError.indexError ∧
    guess_success (mkIssue 9) [{ message := "a" }, { message := "b" }] okOracle okLoads =
      guess_success (mkIssue 9) [{ message := "b" }] okOracle okLoads :=
  ⟨classifier_reads_last_event_only.1 (mkIssue 9) okOracle okLoads,
   classifier_reads_last_event_only.2 (mkIssue 9)
     [{ message := "a" }, { message := "b" }] [{ message := "b" }] okOracle okLoads rfl⟩
